import Mathlib

/-!
# Verification of the cardionet core against its design specification

This file gives a shallow embedding of the two core components of the
repository — the Nmap XML report parser/renderer (`src/core/nmap_parsers.py`)
and the streaming line classifier (`src/core/logs.py`) — and proves or
refutes the frozen claims about them.

Modelling conventions:
* Python strings are `String`; machine integers are `Int`/`Nat`.
* `xml.etree.ElementTree` trees are modelled by `XmlElem` (tag, attribute
  list, children).  A successful `ET.parse` yields such a tree; a document
  whose root is not well-formed markup is modelled as `none`.
* Python's fallible `int(...)` conversion is `pyInt : String → Option Int`;
  `str.strip()` is `pyStrip`.
* Code that raises returns `Except PyError _`; the distinct Python exception
  classes involved are the constructors of `PyError`.
* `datetime.now()` read at render time is an explicit `now : String`
  parameter of the rendering functions.
* The filesystem outcome of `open(path, "w").write(...)` is an explicit
  `writeOutcome : Option String` parameter (`some msg` = an `OSError` with
  that message was raised, `none` = the write succeeded).
-/

namespace Cardionet

/-- Python exception classes that the modelled code can raise. -/
inductive PyError : Type where
  | parseError (msg : String)
  | valueError (msg : String)
  | osError (msg : String)
deriving DecidableEq

/-- An element of an `xml.etree.ElementTree` tree: tag, attributes, children. -/
inductive XmlElem : Type where
  | mk (tag : String) (attrs : List (String × String)) (children : List XmlElem)

/-- The element's tag. -/
def XmlElem.tag : XmlElem → String
  | .mk t _ _ => t

/-- The element's attribute dictionary (as an association list). -/
def XmlElem.attrs : XmlElem → List (String × String)
  | .mk _ a _ => a

/-- The element's direct children. -/
def XmlElem.children : XmlElem → List XmlElem
  | .mk _ _ c => c

/-- Attribute lookup: `elem.attrib.get(key)` without a default. -/
def XmlElem.getAttr (e : XmlElem) (key : String) : Option String :=
  (e.attrs.find? (fun kv => kv.1 == key)).map (fun kv => kv.2)

/-- `elem.get(key, default)` of ElementTree. -/
def XmlElem.get (e : XmlElem) (key dflt : String) : String :=
  (e.getAttr key).getD dflt

/-- `elem.findall(tag)`: all direct children with the given tag, in order. -/
def XmlElem.findall (e : XmlElem) (t : String) : List XmlElem :=
  e.children.filter (fun c => c.tag == t)

/-- `elem.find(tag)`: the first direct child with the given tag, if any. -/
def XmlElem.find (e : XmlElem) (t : String) : Option XmlElem :=
  (e.findall t).head?

/-- Whitespace as stripped by Python's `str.strip()` (ASCII fragment). -/
def isPyWs (c : Char) : Bool :=
  c == ' ' || c == '\t' || c == '\n' || c == '\r' || c.toNat == 11 || c.toNat == 12

/-- Python's `str.strip()`: drop leading and trailing whitespace. -/
def pyStrip (s : String) : String :=
  ⟨((s.data.dropWhile isPyWs).reverse.dropWhile isPyWs).reverse⟩

/-- The numeric value of a non-empty all-digit character list. -/
def digitsToNat : List Char → Option Nat
  | [] => none
  | cs =>
    if cs.all Char.isDigit then
      some (cs.foldl (fun a c => a * 10 + (c.toNat - 48)) 0)
    else none

/-- Python's `int(s)` on a string: optional surrounding whitespace, optional
sign, then a non-empty digit run; `none` models the `ValueError` raised on
any other input. -/
def pyInt (s : String) : Option Int :=
  match (pyStrip s).data with
  | '+' :: rest => (digitsToNat rest).map Int.ofNat
  | '-' :: rest => (digitsToNat rest).map (fun n => -(n : Int))
  | cs => (digitsToNat cs).map Int.ofNat

/-- The four-bucket port-state counters of a host (`host_info['port_stats']`). -/
structure Stats where
  «open» : Nat
  closed : Nat
  filtered : Nat
  other : Nat
deriving DecidableEq

/-- One parsed `<port>` element (`_parse_port`'s result dictionary). -/
structure PortInfo where
  protocol : String
  portid : String
  state : String
  state_reason : String
  service : String
  product : String
  version : String
  extrainfo : String
  method : String
  conf : String
  scripts : List (String × String)
deriving DecidableEq

/-- One parsed `<extraports>` summary. -/
structure ExtraPorts where
  state : String
  count : Int
  reasons : List (String × Int)
deriving DecidableEq

/-- One parsed `<host>` element (`_parse_host`'s result dictionary).
`trace` entries are (ttl, host, ip, time). -/
structure HostInfo where
  state : String
  reason : String
  addr : String
  addrtype : String
  hostnames : List (String × String)
  ports : List PortInfo
  port_stats : Stats
  extraports : Option ExtraPorts
  os : List (String × String)
  trace : List (String × String × String × String)
deriving DecidableEq

/-- `_parse_port`: every field is read with an explicit default; the
function is total. A missing or present `portid` attribute is stored as the
raw string, defaulting to the sentinel `"unknown"`. -/
def parsePort (pe : XmlElem) : PortInfo :=
  let stateE := pe.find "state"
  let serviceE := pe.find "service"
  { protocol := pe.get "protocol" "tcp"
    portid := pe.get "portid" "unknown"
    state := match stateE with | some s => s.get "state" "unknown" | none => "unknown"
    state_reason := match stateE with | some s => s.get "reason" "" | none => ""
    service := match serviceE with | some s => s.get "name" "unknown" | none => "unknown"
    product := match serviceE with | some s => s.get "product" "" | none => ""
    version := match serviceE with | some s => s.get "version" "" | none => ""
    extrainfo := match serviceE with | some s => s.get "extrainfo" "" | none => ""
    method := match serviceE with | some s => s.get "method" "" | none => ""
    conf := match serviceE with | some s => s.get "conf" "0" | none => "0"
    scripts := (pe.findall "script").map (fun s => (s.get "id" "", s.get "output" "")) }

/-- One step of the port-state counting loop in `_parse_host`. -/
def statStep (s : Stats) (p : PortInfo) : Stats :=
  if p.state = "open" then { s with «open» := s.«open» + 1 }
  else if p.state = "closed" then { s with closed := s.closed + 1 }
  else if p.state = "filtered" then { s with filtered := s.filtered + 1 }
  else { s with other := s.other + 1 }

/-- The port-state counters accumulated over the parsed ports. -/
def countStats (ps : List PortInfo) : Stats :=
  ps.foldl statStep ⟨0, 0, 0, 0⟩

/-- `int(elem.get('count', 0))`: a missing attribute defaults to the integer
`0`; a present but non-numeric attribute raises `ValueError`. -/
def pyIntAttrCount (e : XmlElem) : Except PyError Int :=
  match e.getAttr "count" with
  | none => .ok 0
  | some s =>
    match pyInt s with
    | some n => .ok n
    | none => .error (.valueError s)

/-- `List.mapM` specialised to `Except`, with direct structural recursion. -/
def mapExcept (f : α → Except PyError β) : List α → Except PyError (List β)
  | [] => .ok []
  | a :: as =>
    match f a with
    | .error e => .error e
    | .ok b =>
      match mapExcept f as with
      | .error e => .error e
      | .ok bs => .ok (b :: bs)

/-- Parse one `<extraports>` element: the `count` attribute and each
`<extrareasons>` `count` attribute go through `int(...)`. -/
def parseExtraOne (e : XmlElem) : Except PyError ExtraPorts :=
  match pyIntAttrCount e with
  | .error er => .error er
  | .ok count =>
    match mapExcept
        (fun r => (pyIntAttrCount r).map (fun c => (r.get "reason" "", c)))
        (e.findall "extrareasons") with
    | .error er => .error er
    | .ok reasons =>
      .ok { state := e.get "state" "unknown", count := count, reasons := reasons }

/-- The loop over all `<extraports>` elements: every element is parsed (so
any of them can raise), and the last one wins. -/
def parseExtraList : List XmlElem → Except PyError (Option ExtraPorts)
  | [] => .ok none
  | e :: es =>
    match parseExtraOne e with
    | .error er => .error er
    | .ok ex =>
      match parseExtraList es with
      | .error er => .error er
      | .ok none => .ok (some ex)
      | .ok (some later) => .ok (some later)

/-- `_parse_host`: every scalar field is read with an explicit default; the
only fallible parts are the `int(...)` conversions in the extraports loop. -/
def parseHost (he : XmlElem) : Except PyError HostInfo :=
  let status := he.find "status"
  let address := he.find "address"
  let hostnames : List (String × String) :=
    match he.find "hostnames" with
    | none => []
    | some hn =>
      (hn.findall "hostname").filterMap (fun h =>
        let name := h.get "name" ""
        if name = "" then none else some (name, h.get "type" ""))
  let portsElem := he.find "ports"
  let ports : List PortInfo :=
    match portsElem with
    | none => []
    | some pe => (pe.findall "port").map parsePort
  let osList : List (String × String) :=
    match he.find "os" with
    | none => []
    | some oe => (oe.findall "osmatch").map (fun m => (m.get "name" "Unknown", m.get "accuracy" "0"))
  let traceList : List (String × String × String × String) :=
    match he.find "trace" with
    | none => []
    | some te => (te.findall "hop").map (fun h => (h.get "ttl" "", h.get "host" "", h.get "ipaddr" "", h.get "time" ""))
  let extraE : Except PyError (Option ExtraPorts) :=
    match portsElem with
    | none => Except.ok none
    | some pe => parseExtraList (pe.findall "extraports")
  extraE.map (fun ex =>
    { state := match status with | some s => s.get "state" "unknown" | none => "unknown"
      reason := match status with | some s => s.get "reason" "" | none => ""
      addr := match address with | some a => a.get "addr" "N/A" | none => "N/A"
      addrtype := match address with | some a => a.get "addrtype" "ipv4" | none => "ipv4"
      hostnames := hostnames
      ports := ports
      port_stats := countStats ports
      extraports := ex
      os := osList
      trace := traceList })

/-- The state of a constructed `NmapXMLParser` instance. -/
structure ParserState where
  xml_file : String
  root : XmlElem
  hosts : List HostInfo

/-- `NmapXMLParser.__init__` after a successful `ET.parse`: parse every
`<host>` child of the root, in document order. -/
def mkParser (file : String) (root : XmlElem) : Except PyError ParserState :=
  (mapExcept parseHost (root.findall "host")).map (fun hs => ⟨file, root, hs⟩)

/-- `NmapXMLParser(file)` including the `ET.parse` step: a document whose
root is not well-formed markup (`none`) raises `xml.etree.ElementTree
.ParseError`; otherwise parsing proceeds on the tree. -/
def nmapParse (doc : Option XmlElem) (file : String) : Except PyError ParserState :=
  match doc with
  | none => .error (.parseError "no element found")
  | some root => mkParser file root

/-! ## Rendering (`generate_report` / `_build_report` / `_format_host`) -/

/-- An 80-character rule made of the given character (`c * 80` in Python). -/
def rule80 (c : Char) : String :=
  ⟨List.replicate 80 c⟩

/-- Python's format-spec padding `{s:w}` for strings: left-justify by
padding with spaces up to width `w`; longer strings are left untouched. -/
def pyLjust (s : String) (w : Nat) : String :=
  if s.length < w then s ++ ⟨List.replicate (w - s.length) ' '⟩ else s

/-- `_format_port`: the fixed-width port line, with product/version appended
when either is non-empty and extrainfo appended in parentheses. -/
def formatPort (p : PortInfo) : String :=
  let base := "  " ++ p.portid ++ "/" ++ pyLjust p.protocol 3 ++ " " ++
    pyLjust p.state 8 ++ " " ++ pyLjust p.service 15
  let withProd :=
    if p.product ≠ "" ∨ p.version ≠ "" then
      base ++ " " ++ p.product ++ (if p.version ≠ "" then " " ++ p.version else "")
    else base
  if p.extrainfo ≠ "" then withProd ++ " (" ++ p.extrainfo ++ ")" else withProd

/-- The sort key `int(x['portid'])`, defined on ports whose portid is
numeric (`0` is an unused placeholder otherwise). -/
def portKey (p : PortInfo) : Int :=
  (pyInt p.portid).getD 0

/-- Insert `a` into `l` after every element whose key is strictly smaller:
the insertion step of a stable ascending insertion sort. -/
def insertAsc (k : α → Int) (a : α) : List α → List α
  | [] => [a]
  | b :: bs => if k b < k a then b :: insertAsc k a bs else a :: b :: bs

/-- Stable ascending insertion sort by an integer key; output-equivalent to
Python's stable `sorted(l, key=k)`. -/
def sortByKey (k : α → Int) : List α → List α
  | [] => []
  | a :: as => insertAsc k a (sortByKey k as)

/-- Every listed port has a numeric portid, so the sort key never raises. -/
def allNumeric (ps : List PortInfo) : Bool :=
  ps.all (fun p => (pyInt p.portid).isSome)

/-- `sorted(ps, key=lambda x: int(x['portid']))`: computing a key raises
`ValueError` if any portid is non-numeric; otherwise a stable ascending
sort. -/
def sortedPortsE (ps : List PortInfo) : Except PyError (List PortInfo) :=
  if allNumeric ps then .ok (sortByKey portKey ps)
  else .error (.valueError "invalid literal for int() with base 10")

/-- The host's open ports, in stored order. -/
def openPorts (h : HostInfo) : List PortInfo :=
  h.ports.filter (fun p => p.state == "open")

/-- The host's filtered ports, in stored order. -/
def filteredPorts (h : HostInfo) : List PortInfo :=
  h.ports.filter (fun p => p.state == "filtered")

/-- The host's closed ports, in stored order. -/
def closedPorts (h : HostInfo) : List PortInfo :=
  h.ports.filter (fun p => p.state == "closed")

/-- The open-ports block of `_format_host`: all open ports, sorted. -/
def openSection (h : HostInfo) : Except PyError (List String) :=
  if (openPorts h).isEmpty then .ok []
  else
    (sortedPortsE (openPorts h)).map (fun sps =>
      ("\nOPEN PORTS (" ++ toString (openPorts h).length ++ "):") :: sps.map formatPort)

/-- The filtered-ports block of `_format_host`: first 10 of the sorted
list, then a "... and N more" line when more than 10 exist. -/
def filteredSection (h : HostInfo) : Except PyError (List String) :=
  if (filteredPorts h).isEmpty then .ok []
  else
    (sortedPortsE (filteredPorts h)).map (fun sps =>
      ("\nFILTERED PORTS (" ++ toString (filteredPorts h).length ++ "):") ::
        ((sps.take 10).map formatPort ++
          (if (filteredPorts h).length > 10 then
            ["  ... and " ++ toString ((filteredPorts h).length - 10) ++ " more filtered ports"]
          else [])))

/-- The closed-ports block of `_format_host`: full sorted detail when the
count is at most 10, otherwise a single count line (no sort, no detail). -/
def closedSection (h : HostInfo) : Except PyError (List String) :=
  if ¬ (closedPorts h).isEmpty ∧ (closedPorts h).length ≤ 10 then
    (sortedPortsE (closedPorts h)).map (fun sps =>
      ("\nCLOSED PORTS (" ++ toString (closedPorts h).length ++ "):") :: sps.map formatPort)
  else if ¬ (closedPorts h).isEmpty then
    .ok ["\nCLOSED PORTS: " ++ toString (closedPorts h).length ++ " ports closed"]
  else .ok []

/-- The leading lines of a host block: header, address, status, hostnames
and the port-summary counts. -/
def hostHeadLines (h : HostInfo) (n : Nat) : List String :=
  ["\nHOST " ++ toString n,
   rule80 '-',
   "Address: " ++ h.addr ++ " (" ++ h.addrtype ++ ")",
   "Status: " ++ h.state.toUpper ++ " (" ++ h.reason ++ ")"] ++
  (if h.hostnames.isEmpty then []
   else "Hostnames:" :: h.hostnames.map (fun hn => "  " ++ hn.1 ++ " (" ++ hn.2 ++ ")")) ++
  ["\nPort Summary:",
   "  Open: " ++ toString h.port_stats.«open» ++ ", Closed: " ++ toString h.port_stats.closed ++
     ", Filtered: " ++ toString h.port_stats.filtered ++ ", Other: " ++ toString h.port_stats.other]

/-- The extra-ports block: a summary line plus one line per reason. -/
def extraLines (h : HostInfo) : List String :=
  match h.extraports with
  | none => []
  | some ex =>
    ("\nEXTRA PORTS: " ++ toString ex.count ++ " ports " ++ ex.state) ::
      ex.reasons.map (fun r => "  " ++ r.1 ++ ": " ++ toString r.2)

/-- The OS-detection block: only the first 3 matches, in stored order. -/
def osLines (h : HostInfo) : List String :=
  if h.os.isEmpty then []
  else "\nOS DETECTION:" :: (h.os.take 3).map (fun m => "  " ++ m.1 ++ " (" ++ m.2 ++ "%)")

/-- The traceroute block: all hops in stored order. -/
def traceLines (h : HostInfo) : List String :=
  if h.trace.isEmpty then []
  else "\nTRACEROUTE:" ::
    h.trace.map (fun t => "  TTL " ++ t.1 ++ ": " ++ t.2.1 ++ " (" ++ t.2.2.1 ++ ") - " ++ t.2.2.2 ++ "ms")

/-- `_format_host`: the host block, failing exactly when one of the three
sorted port sections fails. -/
def formatHost (h : HostInfo) (n : Nat) : Except PyError (List String) :=
  match openSection h with
  | .error e => .error e
  | .ok openL =>
    match filteredSection h with
    | .error e => .error e
    | .ok filtL =>
      match closedSection h with
      | .error e => .error e
      | .ok closL =>
        .ok (hostHeadLines h n ++ openL ++ filtL ++ closL ++
          extraLines h ++ osLines h ++ traceLines h)

/-- The host blocks for all hosts, numbered from `n` upward. -/
def hostsBlocks : List HostInfo → Nat → Except PyError (List String)
  | [], _ => .ok []
  | h :: hs, n =>
    match formatHost h n with
    | .error e => .error e
    | .ok l =>
      match hostsBlocks hs (n + 1) with
      | .error e => .error e
      | .ok rest => .ok (l ++ rest)

/-- The fixed report header and scan-information block; `now` is the
`datetime.now()` reading formatted at render time. -/
def headLines (st : ParserState) (now : String) : List String :=
  [rule80 '=',
   "NMAP SCAN REPORT",
   rule80 '=',
   "Generated: " ++ now,
   "XML File: " ++ st.xml_file,
   "",
   "SCAN INFORMATION",
   rule80 '-',
   "Nmap Version: " ++ st.root.get "version" "N/A",
   "Command: " ++ st.root.get "args" "N/A",
   "Total Hosts: " ++ toString st.hosts.length,
   ""]

/-- `_format_summary`: aggregate statistics over the derived per-host
counters. -/
def summaryLines (st : ParserState) : List String :=
  ["\n" ++ rule80 '=',
   "SCAN SUMMARY",
   rule80 '=',
   "Total Hosts Scanned: " ++ toString st.hosts.length,
   "Hosts Up: " ++ toString (st.hosts.countP (fun h => h.state == "up")),
   "\nPort Statistics (All Hosts):",
   "  Total Open: " ++ toString (st.hosts.map (fun h => h.port_stats.«open»)).sum,
   "  Total Closed: " ++ toString (st.hosts.map (fun h => h.port_stats.closed)).sum,
   "  Total Filtered: " ++ toString (st.hosts.map (fun h => h.port_stats.filtered)).sum]

/-- `_build_report` before the final join: the full line list. -/
def buildReportLines (st : ParserState) (now : String) : Except PyError (List String) :=
  (hostsBlocks st.hosts 1).map (fun hb =>
    headLines st now ++ hb ++ summaryLines st ++ [rule80 '='])

/-- `_build_report`: `"\n".join(lines)`. -/
def buildReport (st : ParserState) (now : String) : Except PyError String :=
  (buildReportLines st now).map (String.intercalate "\n")

/-- `generate_report(output_file)`: build the report, then (only when a
destination is supplied) attempt the write; a failing write raises the
underlying `OSError` and the report text is not returned. -/
def generateReport (st : ParserState) (now : String) (output : Option String)
    (writeOutcome : Option String) : Except PyError String :=
  match buildReport st now with
  | .error e => .error e
  | .ok report =>
    match output with
    | none => .ok report
    | some _ =>
      match writeOutcome with
      | some emsg => .error (.osError emsg)
      | none => .ok report

/-- `True` exactly on a raised `OSError` (the `IOFailure` of the spec). -/
def errIsOS : Except PyError α → Bool
  | .error (.osError _) => true
  | _ => false

/-- `True` exactly on a raised `ParseError` (the `MalformedDocument` of the
spec). -/
def errIsParse : Except PyError α → Bool
  | .error (.parseError _) => true
  | _ => false

/-! ## The stream classifier (`Logs.scripts_stream_process`) -/

/-- The literal header marker tested with `line.startswith("Categories:")`,
via the character list (kernel-friendly form of `String.startsWith`). -/
def pyStartsWith (s pre : String) : Bool :=
  pre.data.isPrefixOf s.data

/-- The loop body state of `scripts_stream_process`: collected names, the
one-line lookback, and the lines written to the sink so far. -/
def scriptsStreamGo (names : List String) (last : String) (sink : List String) :
    List String → List String × List String
  | [] => (sink, names)
  | raw :: rest =>
    let line := pyStrip raw
    let names' :=
      if last ≠ "" ∧ pyStartsWith line "Categories:" = true ∧ names.length ≤ 25 then
        names ++ [last]
      else names
    scriptsStreamGo names' line (sink ++ [line]) rest

/-- `scripts_stream_process`: every decoded line is stripped and written to
the sink; the lookback rule collects the previous line; after the stream
ends a completion marker carrying the exit status is written.  Returns
(sink contents, collected names). -/
def scriptsStream (ls : List String) (rc : Int) : List String × List String :=
  let (sink, names) := scriptsStreamGo [] "" [] ls
  (sink ++ ["\nProcess finished with code " ++ toString rc], names)

/-- The detection rule as the specification words it, over the forwarded
lines, with the cap as a parameter: collect the preceding line `prev` when
it is non-empty, the current line starts with "Categories:" and fewer than
`cap` names have been collected. -/
def specDetectGo (cap : Nat) (acc : List String) (prev : String) :
    List String → List String
  | [] => acc
  | l :: rest =>
    let acc' :=
      if prev ≠ "" ∧ pyStartsWith l "Categories:" = true ∧ acc.length < cap then
        acc ++ [prev]
      else acc
    specDetectGo cap acc' l rest

/-- The specification's collected-names list for a sequence of forwarded
lines, starting with the empty-string sentinel as "no previous line". -/
def specDetectNames (cap : Nat) (ls : List String) : List String :=
  specDetectGo cap [] "" ls

/-! ## Helper lemmas -/

theorem statStep_sum (s : Stats) (p : PortInfo) :
    (statStep s p).«open» + (statStep s p).closed + (statStep s p).filtered +
      (statStep s p).other
      = s.«open» + s.closed + s.filtered + s.other + 1 := by
  unfold statStep
  split
  · simp; omega
  · split
    · simp; omega
    · split <;> simp <;> omega

theorem foldl_statStep_sum (ps : List PortInfo) (s : Stats) :
    (ps.foldl statStep s).«open» + (ps.foldl statStep s).closed +
      (ps.foldl statStep s).filtered + (ps.foldl statStep s).other
      = s.«open» + s.closed + s.filtered + s.other + ps.length := by
  induction ps generalizing s with
  | nil => simp
  | cons p ps ih =>
    simp only [List.foldl_cons, ih, statStep_sum, List.length_cons]
    omega

theorem countStats_sum (ps : List PortInfo) :
    (countStats ps).«open» + (countStats ps).closed + (countStats ps).filtered +
      (countStats ps).other = ps.length := by
  unfold countStats
  simp [foldl_statStep_sum]

theorem insertAsc_perm (k : α → Int) (a : α) (l : List α) :
    (insertAsc k a l).Perm (a :: l) := by
  induction l with
  | nil => exact List.Perm.refl _
  | cons b bs ih =>
    unfold insertAsc
    split
    · exact (ih.cons b).trans (List.Perm.swap a b bs)
    · exact List.Perm.refl _

theorem sortByKey_perm (k : α → Int) (l : List α) :
    (sortByKey k l).Perm l := by
  induction l with
  | nil => exact List.Perm.refl _
  | cons a as ih =>
    exact (insertAsc_perm k a (sortByKey k as)).trans (ih.cons a)

theorem insertAsc_pairwise (k : α → Int) (a : α) (l : List α)
    (h : l.Pairwise (fun x y => k x ≤ k y)) :
    (insertAsc k a l).Pairwise (fun x y => k x ≤ k y) := by
  induction l with
  | nil => simp [insertAsc]
  | cons b bs ih =>
    rcases List.pairwise_cons.mp h with ⟨hb, hbs⟩
    unfold insertAsc
    split
    · rename_i hlt
      refine List.pairwise_cons.mpr ⟨?_, ih hbs⟩
      intro x hx
      rcases List.mem_cons.mp ((insertAsc_perm k a bs).mem_iff.mp hx) with rfl | hx'
      · omega
      · exact hb x hx'
    · rename_i hnlt
      refine List.pairwise_cons.mpr ⟨?_, h⟩
      intro x hx
      rcases List.mem_cons.mp hx with rfl | hx'
      · omega
      · have := hb x hx'
        omega

theorem sortByKey_pairwise (k : α → Int) (l : List α) :
    (sortByKey k l).Pairwise (fun x y => k x ≤ k y) := by
  induction l with
  | nil => simp [sortByKey]
  | cons a as ih => exact insertAsc_pairwise k a _ ih

theorem insertAsc_filter (k : α → Int) (a : α) (l : List α) (v : Int) :
    (insertAsc k a l).filter (fun x => k x == v)
      = (if k a == v then [a] else []) ++ l.filter (fun x => k x == v) := by
  induction l with
  | nil =>
    by_cases h : k a = v <;> simp [insertAsc, h]
  | cons b bs ih =>
    unfold insertAsc
    split
    · rename_i hlt
      rw [List.filter_cons, ih]
      by_cases ha : k a = v <;> by_cases hb : k b = v
      · exfalso; omega
      · simp [ha, hb]
      · simp [ha, hb]
      · simp [ha, hb]
    · rw [List.filter_cons]
      by_cases ha : k a = v <;> simp [ha, List.filter_cons]

theorem sortByKey_filter (k : α → Int) (l : List α) (v : Int) :
    (sortByKey k l).filter (fun x => k x == v) = l.filter (fun x => k x == v) := by
  induction l with
  | nil => rfl
  | cons a as ih =>
    show (insertAsc k a (sortByKey k as)).filter _ = _
    rw [insertAsc_filter, ih, List.filter_cons]
    by_cases ha : k a = v <;> simp [ha]

theorem scriptsStreamGo_sink (ls : List String) (names : List String)
    (last : String) (sink : List String) :
    (scriptsStreamGo names last sink ls).1 = sink ++ ls.map pyStrip := by
  induction ls generalizing names last sink with
  | nil => simp [scriptsStreamGo]
  | cons raw rest ih =>
    simp only [scriptsStreamGo, ih, List.map_cons]
    simp

theorem scriptsStreamGo_names_le (ls : List String) (names : List String)
    (last : String) (sink : List String) (h : names.length ≤ 26) :
    (scriptsStreamGo names last sink ls).2.length ≤ 26 := by
  induction ls generalizing names last sink with
  | nil => simpa [scriptsStreamGo] using h
  | cons raw rest ih =>
    simp only [scriptsStreamGo]
    apply ih
    split
    · rename_i hcond
      simp only [List.length_append, List.length_cons, List.length_nil]
      omega
    · exact h

theorem scriptsStreamGo_eq_spec (ls : List String) (names : List String)
    (last : String) (sink : List String) :
    (scriptsStreamGo names last sink ls).2
      = specDetectGo 26 names last (ls.map pyStrip) := by
  induction ls generalizing names last sink with
  | nil => simp [scriptsStreamGo, specDetectGo]
  | cons raw rest ih =>
    simp only [scriptsStreamGo, specDetectGo, List.map_cons]
    rw [ih]
    congr 1
    refine if_congr ?_ rfl rfl
    constructor
    · rintro ⟨h1, h2, h3⟩; exact ⟨h1, h2, by omega⟩
    · rintro ⟨h1, h2, h3⟩; exact ⟨h1, h2, by omega⟩

/-! ## Totality of parsing when count attributes are numeric -/

/-- The `count` attribute of an element is absent or numeric, so that
`int(elem.get('count', 0))` cannot raise. -/
def attrCountOk (e : XmlElem) : Bool :=
  match e.getAttr "count" with
  | none => true
  | some s => (pyInt s).isSome

/-- All `int(...)` conversions of one `<extraports>` element succeed. -/
def extraOk (ex : XmlElem) : Bool :=
  attrCountOk ex && (ex.findall "extrareasons").all attrCountOk

/-- All `int(...)` conversions reachable from one `<host>` element succeed. -/
def hostCountsOk (h : XmlElem) : Bool :=
  match h.find "ports" with
  | none => true
  | some pe => (pe.findall "extraports").all extraOk

/-- All `int(...)` conversions reachable from the document root succeed. -/
def countsOk (root : XmlElem) : Bool :=
  (root.findall "host").all hostCountsOk

theorem pyIntAttrCount_ok (e : XmlElem) (h : attrCountOk e = true) :
    ∃ n, pyIntAttrCount e = .ok n := by
  unfold attrCountOk at h
  unfold pyIntAttrCount
  cases hg : e.getAttr "count" with
  | none => exact ⟨0, rfl⟩
  | some s =>
    rw [hg] at h
    dsimp only at h ⊢
    cases hp : pyInt s with
    | none => rw [hp] at h; simp at h
    | some n => exact ⟨n, by simp [hp]⟩

theorem mapExcept_ok (f : α → Except PyError β) (l : List α)
    (h : ∀ a ∈ l, ∃ b, f a = .ok b) :
    ∃ bs, mapExcept f l = .ok bs := by
  induction l with
  | nil => exact ⟨[], rfl⟩
  | cons a as ih =>
    obtain ⟨b, hb⟩ := h a (List.mem_cons_self a as)
    obtain ⟨bs, hbs⟩ := ih (fun x hx => h x (List.mem_cons_of_mem a hx))
    exact ⟨b :: bs, by simp [mapExcept, hb, hbs]⟩

theorem parseExtraOne_ok (e : XmlElem) (h : extraOk e = true) :
    ∃ ex, parseExtraOne e = .ok ex := by
  unfold extraOk at h
  rw [Bool.and_eq_true] at h
  obtain ⟨n, hn⟩ := pyIntAttrCount_ok e h.1
  have hreasons : ∀ r ∈ e.findall "extrareasons",
      ∃ c, (pyIntAttrCount r).map (fun c => (r.get "reason" "", c)) = .ok c := by
    intro r hr
    obtain ⟨c, hc⟩ := pyIntAttrCount_ok r (List.all_eq_true.mp h.2 r hr)
    exact ⟨(r.get "reason" "", c), by simp [hc, Except.map]⟩
  obtain ⟨rs, hrs⟩ := mapExcept_ok _ _ hreasons
  exact ⟨{ state := e.get "state" "unknown", count := n, reasons := rs },
    by unfold parseExtraOne; rw [hn]; dsimp only; rw [hrs]⟩

theorem parseExtraList_ok (es : List XmlElem) (h : ∀ e ∈ es, extraOk e = true) :
    ∃ o, parseExtraList es = .ok o := by
  induction es with
  | nil => exact ⟨none, rfl⟩
  | cons e es ih =>
    obtain ⟨ex, hex⟩ := parseExtraOne_ok e (h e (List.mem_cons_self e es))
    obtain ⟨o, ho⟩ := ih (fun x hx => h x (List.mem_cons_of_mem e hx))
    cases o with
    | none => exact ⟨some ex, by simp [parseExtraList, hex, ho]⟩
    | some later => exact ⟨some later, by simp [parseExtraList, hex, ho]⟩

theorem parseHost_ok (he : XmlElem) (h : hostCountsOk he = true) :
    ∃ hi, parseHost he = .ok hi := by
  unfold hostCountsOk at h
  unfold parseHost
  cases hp : he.find "ports" with
  | none => exact ⟨_, rfl⟩
  | some pe =>
    rw [hp] at h
    obtain ⟨o, ho⟩ := parseExtraList_ok (pe.findall "extraports") (List.all_eq_true.mp h)
    exact ⟨_, by dsimp only; rw [ho]; exact rfl⟩

theorem mkParser_ok (file : String) (root : XmlElem) (h : countsOk root = true) :
    ∃ hs, mkParser file root = .ok ⟨file, root, hs⟩ := by
  unfold countsOk at h
  obtain ⟨hs, hhs⟩ := mapExcept_ok parseHost (root.findall "host")
    (fun he hm => parseHost_ok he (List.all_eq_true.mp h he hm))
  exact ⟨hs, by unfold mkParser; rw [hhs]; exact rfl⟩

/-! ## Claims -/

set_option maxRecDepth 20000

/-- A parser state for an empty, well-formed document: no hosts. -/
def exSt1 : ParserState := ⟨"scan.xml", .mk "nmaprun" [] [], []⟩

/-- C1 counterexample: rendering reads the clock (`datetime.now()`) at
render time, so two renders of the very same `ScanResult` model at
different clock readings produce different report text — the "Generated:"
line differs.  This refutes byte-identical determinism as claimed. -/
theorem render_not_clock_free :
    buildReport exSt1 "2025-01-01 00:00:00" ≠ buildReport exSt1 "2025-01-01 00:00:01" := by
  intro h
  have h2 := congrArg Except.toOption h
  revert h2
  decide

/-- C1 (amended): rendering is a pure function of the model plus the clock
reading taken during the render; two renders of the same model succeed or
fail together, and their line lists agree everywhere except at index 3,
the "Generated:" timestamp line.  With equal clock readings the output is
byte-identical (the rendering functions take no other input). -/
theorem render_depends_only_on_model_and_clock (st : ParserState) (t₁ t₂ : String) :
    (buildReportLines st t₁).isOk = (buildReportLines st t₂).isOk ∧
    (buildReportLines st t₁).toOption.map (fun l => l.eraseIdx 3)
      = (buildReportLines st t₂).toOption.map (fun l => l.eraseIdx 3) := by
  unfold buildReportLines
  cases hb : hostsBlocks st.hosts 1 with
  | error e => simp [Except.map, Except.toOption, Except.isOk, Except.toBool]
  | ok hb' =>
    constructor
    · simp [Except.map, Except.isOk, Except.toBool]
    · simp [Except.map, Except.toOption, headLines, List.eraseIdx]

/-- 30 distinct qualifying header pairs: each record name followed by a
"Categories:" line. -/
def ex30lines : List String :=
  (List.range 30).foldr (fun i acc => ("svc" ++ toString i) :: "Categories: x" :: acc) []

/-- The collected names of `scripts_stream_process` are those of the inner
loop. -/
theorem scriptsStream_snd (ls : List String) (rc : Int) :
    (scriptsStream ls rc).2 = (scriptsStreamGo [] "" [] ls).2 := rfl

/-- C2 counterexample: the loop guard is `len(script_names) <= 25`, which
still appends when 25 names are already collected, so 30 distinct
qualifying header pairs yield 26 collected names, not 25. -/
theorem cap25_refuted :
    (scriptsStream ex30lines 0).2.length = 26 ∧
    (scriptsStream ex30lines 0).2.length ≠ 25 := by
  exact ⟨by decide, by decide⟩

/-- C2 (amended): the collected-names list is capped at 26 (the guard
admits appends while at most 25 names are collected): every input yields at
most 26 names, and 30 distinct qualifying header pairs yield exactly 26. -/
theorem collected_names_cap_26 :
    (∀ ls : List String, ∀ rc : Int, (scriptsStream ls rc).2.length ≤ 26) ∧
    (scriptsStream ex30lines 0).2.length = 26 := by
  constructor
  · intro ls rc
    rw [scriptsStream_snd]
    exact scriptsStreamGo_names_le ls [] "" [] (by simp)
  · decide

/-- C4 counterexample: each raw line is passed through `str.strip()` before
being written to the sink, so a line with surrounding whitespace is not
forwarded verbatim. -/
theorem forwarding_not_verbatim :
    (scriptsStream ["  a  "] 0).1 = ["a", "\nProcess finished with code 0"] ∧
    ("a" : String) ≠ "  a  " := by
  exact ⟨by decide, by decide⟩

/-- C4 (amended): every input line is forwarded to the sink exactly once
and in arrival order, but stripped of leading/trailing whitespace rather
than verbatim; a completion marker carrying the exit status follows. -/
theorem forwards_stripped_in_order (ls : List String) (rc : Int) :
    (scriptsStream ls rc).1
      = ls.map pyStrip ++ ["\nProcess finished with code " ++ toString rc] := by
  show (scriptsStreamGo [] "" [] ls).1 ++ _ = _
  rw [scriptsStreamGo_sink]
  simp

/-- 26 distinct qualifying header pairs. -/
def ex26lines : List String :=
  (List.range 26).foldr (fun i acc => ("svc" ++ toString i) :: "Categories: x" :: acc) []

/-- C5 counterexample: the claimed detection rule collects only while fewer
than the cap (25) names are collected, but the code's guard is
`len <= 25`: on 26 qualifying pairs the claimed rule collects 25 names
while the code collects 26. -/
theorem detection_cap25_refuted :
    (scriptsStream ex26lines 0).2.length = 26 ∧
    (specDetectNames 25 (ex26lines.map pyStrip)).length = 25 ∧
    (scriptsStream ex26lines 0).2 ≠ specDetectNames 25 (ex26lines.map pyStrip) := by
  exact ⟨by decide, by decide, by decide⟩

/-- C5 (amended): over the forwarded (stripped) lines, a line L causes a
collection if and only if the previous forwarded line P is non-empty, L
starts with "Categories:", and at most 25 names (fewer than the effective
cap of 26) have been collected; P, not L, is appended.  In particular a
"Categories:" line as the very first input collects nothing, and
["alpha", "Categories: x", "beta", "Categories: y"] collects
["alpha", "beta"]. -/
theorem detection_rule_cap26 :
    (∀ ls : List String, ∀ rc : Int,
      (scriptsStream ls rc).2 = specDetectNames 26 (ls.map pyStrip)) ∧
    (scriptsStream ["alpha", "Categories: x", "beta", "Categories: y"] 0).2
      = ["alpha", "beta"] ∧
    (scriptsStream ["Categories: x"] 0).2 = [] := by
  refine ⟨?_, by decide, by decide⟩
  intro ls rc
  rw [scriptsStream_snd]
  exact scriptsStreamGo_eq_spec ls [] "" []

/-- A well-formed document whose single host carries an `<extraports>`
element with the non-numeric count attribute `"forty"`. -/
def badCountRoot : XmlElem :=
  .mk "nmaprun" [] [
    .mk "host" [] [
      .mk "ports" [] [
        .mk "extraports" [("state", "filtered"), ("count", "forty")] []]]]

/-- C3 counterexample: parsing this well-formed document raises
`ValueError` (from `int(extraports.get('count', 0))`), not
`MalformedDocument`, so `parse` is not total on well-formed documents and
can fail with something other than `MalformedDocument`. -/
theorem wellformed_doc_raises_valueerror :
    nmapParse (some badCountRoot) "scan.xml" = .error (.valueError "forty") ∧
    errIsParse (nmapParse (some badCountRoot) "scan.xml") = false := by
  exact ⟨rfl, rfl⟩

/-- C3 (amended): a malformed root raises `MalformedDocument`
(`ParseError`); for a well-formed document, missing or non-numeric port
numbers, accuracies and confidences are stored as raw-string
sentinels/defaults without error, and parsing succeeds — provided every
`count` attribute on `<extraports>`/`<extrareasons>` elements is absent or
numeric.  A present non-numeric `count` raises `ValueError` instead. -/
theorem parse_total_when_counts_numeric (root : XmlElem) (file : String)
    (h : countsOk root = true) :
    (nmapParse (some root) file).isOk = true ∧
    errIsParse (nmapParse (some root) file) = false ∧
    nmapParse none file = .error (.parseError "no element found") := by
  obtain ⟨hs, hhs⟩ := mkParser_ok file root h
  refine ⟨?_, ?_, rfl⟩ <;>
    simp [nmapParse, hhs, Except.isOk, Except.toBool, errIsParse]

/-- A well-formed document exercising numeric and absent `count`
attributes, ports with defaulted fields, and hosts without ports. -/
def okCountRoot : XmlElem :=
  .mk "nmaprun" [("version", "7.94"), ("args", "nmap -sV host")] [
    .mk "host" [] [
      .mk "status" [("state", "up")] [],
      .mk "ports" [] [
        .mk "port" [("portid", "80")] [.mk "state" [("state", "open")] []],
        .mk "port" [] [],
        .mk "extraports" [("state", "closed"), ("count", "996")] [
          .mk "extrareasons" [("reason", "resets"), ("count", "996")] []],
        .mk "extraports" [("state", "filtered")] []]],
    .mk "host" [] []]

/-- C3 witness: the totality theorem applied to a concrete well-formed
document with numeric and absent count attributes. -/
theorem parse_total_when_counts_numeric_witness :
    countsOk okCountRoot = true ∧
    ((nmapParse (some okCountRoot) "scan.xml").isOk = true ∧
      errIsParse (nmapParse (some okCountRoot) "scan.xml") = false ∧
      nmapParse none "scan.xml" = .error (.parseError "no element found")) :=
  ⟨by decide, parse_total_when_counts_numeric okCountRoot "scan.xml" (by decide)⟩

/-- A host element with no `<ports>` sub-element at all. -/
def he6 : XmlElem := .mk "host" [] []

/-- The host record the parser produces for `he6`. -/
def hi6 : HostInfo :=
  { state := "unknown", reason := "", addr := "N/A", addrtype := "ipv4",
    hostnames := [], ports := [], port_stats := ⟨0, 0, 0, 0⟩,
    extraports := none, os := [], trace := [] }

/-- C6: for every successfully parsed host, the four port-state counters
sum to the number of parsed ports, and a host element with no ports
sub-element yields all-zero counters and an empty ports sequence. -/
theorem port_stats_sum_invariant (he : XmlElem) (hi : HostInfo)
    (h : parseHost he = .ok hi) :
    hi.port_stats.«open» + hi.port_stats.closed + hi.port_stats.filtered +
        hi.port_stats.other = hi.ports.length ∧
    (he.find "ports" = none → hi.port_stats = ⟨0, 0, 0, 0⟩ ∧ hi.ports = []) := by
  unfold parseHost at h
  cases hp : he.find "ports" with
  | none =>
    rw [hp] at h
    dsimp only at h
    simp only [Except.map] at h
    cases h
    exact ⟨rfl, fun _ => ⟨rfl, rfl⟩⟩
  | some pe =>
    rw [hp] at h
    dsimp only at h
    cases hex : parseExtraList (pe.findall "extraports") with
    | error e => rw [hex] at h; simp [Except.map] at h
    | ok ex =>
      rw [hex] at h
      simp only [Except.map] at h
      cases h
      refine ⟨countStats_sum _, fun hnone => ?_⟩
      simp at hnone

/-- C6 witness: a concrete portless host element parses to all-zero
counters and no ports, without error. -/
theorem port_stats_sum_invariant_witness :
    parseHost he6 = .ok hi6 ∧
    (hi6.port_stats.«open» + hi6.port_stats.closed + hi6.port_stats.filtered +
        hi6.port_stats.other = hi6.ports.length ∧
      (he6.find "ports" = none → hi6.port_stats = ⟨0, 0, 0, 0⟩ ∧ hi6.ports = [])) :=
  ⟨rfl, port_stats_sum_invariant he6 hi6 rfl⟩

/-- C7: for a host whose open and filtered port numbers are all numeric,
the open section renders ALL open ports in ascending (non-decreasing) key
order with duplicates in original relative order (the rendered list is a
permutation of the open ports, pairwise non-decreasing by key, and
filter-stable on every key); the filtered section renders the first 10 of
the ascending filtered list followed by an "... and N more" line exactly
when more than 10 filtered ports exist. -/
theorem open_filtered_rendering_sorted (h : HostInfo)
    (ho : allNumeric (openPorts h) = true) (hf : allNumeric (filteredPorts h) = true) :
    openSection h = .ok (if (openPorts h).isEmpty then []
      else ("\nOPEN PORTS (" ++ toString (openPorts h).length ++ "):") ::
        (sortByKey portKey (openPorts h)).map formatPort) ∧
    (sortByKey portKey (openPorts h)).Perm (openPorts h) ∧
    (sortByKey portKey (openPorts h)).Pairwise (fun a b => portKey a ≤ portKey b) ∧
    (∀ v : Int, (sortByKey portKey (openPorts h)).filter (fun p => portKey p == v)
      = (openPorts h).filter (fun p => portKey p == v)) ∧
    filteredSection h = .ok (if (filteredPorts h).isEmpty then []
      else ("\nFILTERED PORTS (" ++ toString (filteredPorts h).length ++ "):") ::
        (((sortByKey portKey (filteredPorts h)).take 10).map formatPort ++
          (if (filteredPorts h).length > 10 then
            ["  ... and " ++ toString ((filteredPorts h).length - 10) ++ " more filtered ports"]
          else []))) ∧
    (sortByKey portKey (filteredPorts h)).Perm (filteredPorts h) ∧
    (sortByKey portKey (filteredPorts h)).Pairwise (fun a b => portKey a ≤ portKey b) ∧
    (∀ v : Int, (sortByKey portKey (filteredPorts h)).filter (fun p => portKey p == v)
      = (filteredPorts h).filter (fun p => portKey p == v)) := by
  refine ⟨?_, sortByKey_perm _ _, sortByKey_pairwise _ _, fun v => sortByKey_filter _ _ v,
    ?_, sortByKey_perm _ _, sortByKey_pairwise _ _, fun v => sortByKey_filter _ _ v⟩
  · by_cases he : (openPorts h).isEmpty <;>
      simp [openSection, sortedPortsE, ho, he, Except.map]
  · by_cases he : (filteredPorts h).isEmpty <;>
      simp [filteredSection, sortedPortsE, hf, he, Except.map]

/-- A port record with the given portid and state, all other fields at
their parse-time defaults. -/
def mkPort (portid state : String) : PortInfo :=
  { protocol := "tcp", portid := portid, state := state, state_reason := "",
    service := "unknown", product := "", version := "", extrainfo := "",
    method := "", conf := "0", scripts := [] }

/-- A host with numeric open and filtered ports, out of order and with a
duplicate key. -/
def exHost7 : HostInfo :=
  { state := "up", reason := "", addr := "10.0.0.1", addrtype := "ipv4",
    hostnames := [],
    ports := [mkPort "80" "open", mkPort "22" "open", mkPort "80" "open",
              mkPort "443" "filtered", mkPort "53" "filtered"],
    port_stats := ⟨3, 0, 2, 0⟩, extraports := none, os := [], trace := [] }

/-- C7 witness: the rendering theorem applied to a concrete host. -/
theorem open_filtered_rendering_sorted_witness :
    allNumeric (openPorts exHost7) = true ∧
    allNumeric (filteredPorts exHost7) = true ∧
    (openSection exHost7 = .ok (if (openPorts exHost7).isEmpty then []
      else ("\nOPEN PORTS (" ++ toString (openPorts exHost7).length ++ "):") ::
        (sortByKey portKey (openPorts exHost7)).map formatPort) ∧
    (sortByKey portKey (openPorts exHost7)).Perm (openPorts exHost7) ∧
    (sortByKey portKey (openPorts exHost7)).Pairwise (fun a b => portKey a ≤ portKey b) ∧
    (∀ v : Int, (sortByKey portKey (openPorts exHost7)).filter (fun p => portKey p == v)
      = (openPorts exHost7).filter (fun p => portKey p == v)) ∧
    filteredSection exHost7 = .ok (if (filteredPorts exHost7).isEmpty then []
      else ("\nFILTERED PORTS (" ++ toString (filteredPorts exHost7).length ++ "):") ::
        (((sortByKey portKey (filteredPorts exHost7)).take 10).map formatPort ++
          (if (filteredPorts exHost7).length > 10 then
            ["  ... and " ++ toString ((filteredPorts exHost7).length - 10) ++ " more filtered ports"]
          else []))) ∧
    (sortByKey portKey (filteredPorts exHost7)).Perm (filteredPorts exHost7) ∧
    (sortByKey portKey (filteredPorts exHost7)).Pairwise (fun a b => portKey a ≤ portKey b) ∧
    (∀ v : Int, (sortByKey portKey (filteredPorts exHost7)).filter (fun p => portKey p == v)
      = (filteredPorts exHost7).filter (fun p => portKey p == v))) :=
  ⟨by decide, by decide, open_filtered_rendering_sorted exHost7 (by decide) (by decide)⟩

/-- C8: closed-port rendering is asymmetric — with all closed port numbers
numeric, at most 10 closed ports are rendered individually in ascending
order (a permutation of the closed ports, pairwise non-decreasing by key),
while more than 10 closed ports produce only the single count line with no
per-port detail. -/
theorem closed_rendering_asymmetric (h : HostInfo)
    (hc : allNumeric (closedPorts h) = true) :
    closedSection h = .ok (
      if (closedPorts h).isEmpty then []
      else if (closedPorts h).length ≤ 10 then
        ("\nCLOSED PORTS (" ++ toString (closedPorts h).length ++ "):") ::
          (sortByKey portKey (closedPorts h)).map formatPort
      else ["\nCLOSED PORTS: " ++ toString (closedPorts h).length ++ " ports closed"]) ∧
    (sortByKey portKey (closedPorts h)).Perm (closedPorts h) ∧
    (sortByKey portKey (closedPorts h)).Pairwise (fun a b => portKey a ≤ portKey b) := by
  refine ⟨?_, sortByKey_perm _ _, sortByKey_pairwise _ _⟩
  unfold closedSection
  by_cases he : (closedPorts h).isEmpty
  · simp [he]
  · by_cases hl : (closedPorts h).length ≤ 10
    · simp [he, hl, sortedPortsE, hc, Except.map]
    · simp [he, hl]

/-- A host with two numeric closed ports. -/
def exHost8 : HostInfo :=
  { state := "up", reason := "", addr := "10.0.0.2", addrtype := "ipv4",
    hostnames := [],
    ports := [mkPort "443" "closed", mkPort "21" "closed"],
    port_stats := ⟨0, 2, 0, 0⟩, extraports := none, os := [], trace := [] }

/-- C8 witness: the asymmetric closed-rendering theorem applied to a
concrete host with two closed ports. -/
theorem closed_rendering_asymmetric_witness :
    allNumeric (closedPorts exHost8) = true ∧
    (closedSection exHost8 = .ok (
      if (closedPorts exHost8).isEmpty then []
      else if (closedPorts exHost8).length ≤ 10 then
        ("\nCLOSED PORTS (" ++ toString (closedPorts exHost8).length ++ "):") ::
          (sortByKey portKey (closedPorts exHost8)).map formatPort
      else ["\nCLOSED PORTS: " ++ toString (closedPorts exHost8).length ++ " ports closed"]) ∧
    (sortByKey portKey (closedPorts exHost8)).Perm (closedPorts exHost8) ∧
    (sortByKey portKey (closedPorts exHost8)).Pairwise (fun a b => portKey a ≤ portKey b)) :=
  ⟨by decide, closed_rendering_asymmetric exHost8 (by decide)⟩

/-- A parser state for an empty, well-formed document, used for the
write-failure claims. -/
def exSt9 : ParserState := ⟨"scan.xml", .mk "nmaprun" [] [], []⟩

/-- C9 counterexample: the report text is computed (an in-memory render of
the same state succeeds), yet when the write to the destination fails the
call returns only the raised error — the caller does not receive the
already-computed report text from the failing call. -/
theorem write_failure_loses_report :
    (buildReport exSt9 "2025-01-01 00:00:00").isOk = true ∧
    (generateReport exSt9 "2025-01-01 00:00:00" (some "out.txt") (some "disk full")).isOk
      = false := by
  exact ⟨rfl, rfl⟩

/-- C9 (amended): a failing write surfaces the underlying `OSError`, which
is distinct from the `ParseError` of a malformed document; the report text
itself is unaffected — rendering the same state without a destination
still returns it — but the failing call does not hand the text back, so
the caller must re-render to obtain it. -/
theorem write_failure_oserror (st : ParserState) (now p emsg : String)
    (h : (buildReport st now).isOk = true) :
    generateReport st now (some p) (some emsg) = .error (.osError emsg) ∧
    errIsOS (generateReport st now (some p) (some emsg)) = true ∧
    errIsParse (generateReport st now (some p) (some emsg)) = false ∧
    generateReport st now none (some emsg) = buildReport st now := by
  cases hb : buildReport st now with
  | error e => rw [hb] at h; simp [Except.isOk, Except.toBool] at h
  | ok report => simp [generateReport, hb, errIsOS, errIsParse]

/-- C9 witness: the write-failure theorem applied to a concrete state and
a concrete failing write. -/
theorem write_failure_oserror_witness :
    (buildReport exSt9 "2025-06-01 12:00:00").isOk = true ∧
    (generateReport exSt9 "2025-06-01 12:00:00" (some "report.txt") (some "Permission denied")
        = .error (.osError "Permission denied") ∧
      errIsOS (generateReport exSt9 "2025-06-01 12:00:00" (some "report.txt")
        (some "Permission denied")) = true ∧
      errIsParse (generateReport exSt9 "2025-06-01 12:00:00" (some "report.txt")
        (some "Permission denied")) = false ∧
      generateReport exSt9 "2025-06-01 12:00:00" none (some "Permission denied")
        = buildReport exSt9 "2025-06-01 12:00:00") :=
  ⟨rfl, write_failure_oserror exSt9 "2025-06-01 12:00:00" "report.txt" "Permission denied" rfl⟩

/-- A well-formed document with one host whose single port has no portid
attribute and is in state "open". -/
def exRoot10 : XmlElem :=
  .mk "nmaprun" [] [
    .mk "host" [] [
      .mk "ports" [] [
        .mk "port" [] [.mk "state" [("state", "open")] []]]]]

/-- C10: this document parses without error, the port is stored with the
sentinel portid "unknown" and state "open", and rendering the parsed model
fails with `ValueError` because the renderer computes `int(portid)` as the
sort key for the listed open port. -/
theorem sentinel_portid_render_fails :
    (mkParser "scan.xml" exRoot10).isOk = true ∧
    ((mkParser "scan.xml" exRoot10).toOption.map
        (fun st => st.hosts.map (fun hh => hh.ports.map (fun p => (p.portid, p.state)))))
      = some [[("unknown", "open")]] ∧
    ((mkParser "scan.xml" exRoot10).bind (fun st => buildReport st "2025-01-01 00:00:00"))
      = .error (.valueError "invalid literal for int() with base 10") := by
  exact ⟨rfl, rfl, rfl⟩

end Cardionet
